import Mathlib

/-!
Shallow embedding of the podcast-generator backend, covering the agentic
script-generation loop (`app/services/script_generator.py`), the MCP client
(`app/services/mcp_client.py`), the arXiv Atom parser
(`app/services/research/sources/arxiv.py`) and the settings defaults
(`app/core/config.py`).

External effects are modelled as oracles passed in explicitly: the arXiv
network search is a function `String → Int → List ResearchItem`, and the
reasoning engine is a list of responses consumed one per loop iteration.
-/

/-- The double-quote character, used in Python f-strings of the source. -/
def dquote : String := String.singleton (Char.ofNat 34)

/-- The single-quote character, used in Python f-strings of the source. -/
def squote : String := String.singleton (Char.ofNat 39)

/-! ## app/services/research/sources/base.py -/

/-- `ResearchItem` dataclass from `base.py`. -/
structure ResearchItem where
  title : String
  summary : String
  url : String
  source_type : String
  authors : Option (List String) := none
  published_date : Option String := none
  deriving DecidableEq

/-! ## app/core/config.py -/

/-- `Settings` from `config.py`, with the declared defaults (the embedding
models the default-valued settings; env-file overrides are out of scope). -/
structure Settings where
  anthropic_api_key : String := ""
  elevenlabs_api_key : String := ""
  elevenlabs_voice_id : String := "21m00Tcm4TlvDq8ikWAM"
  podcast_duration_minutes : Int := 5
  audio_output_dir : String := "audio"
  debug : Bool := false
  deriving DecidableEq

/-- The module-level singleton `settings = Settings()`. -/
def settings : Settings := {}

/-! ## app/services/research/sources/arxiv.py -/

/-- Python `str.split()` with no argument: split on whitespace runs,
discarding empty pieces. -/
def pySplitWhitespace (s : String) : List String :=
  (s.split Char.isWhitespace).filter (fun w => w ≠ "")

/-- `ArxivSource._clean_text`: `" ".join(text.split())`. -/
def clean_text (text : String) : String :=
  String.intercalate " " (pySplitWhitespace text)

/-- One `atom:entry` element of a well-formed arXiv Atom feed, as seen by
`ArxivSource._parse_response`: each child element is either absent (`none`)
or present with its text. `authorNames` are the texts of the `atom:name`
children of those `atom:author` elements that have one. -/
structure AtomEntry where
  title : Option String
  summary : Option String
  id : Option String
  published : Option String
  authorNames : List String
  deriving DecidableEq

/-- The `source_type` property of `ArxivSource`. -/
def ArxivSource.source_type : String := "arxiv"

/-- The `ResearchItem` built for one entry in `ArxivSource._parse_response`
(lines 59–80 of `arxiv.py`): missing `title`/`summary`/`id` become the empty
string, a missing `published` becomes `None`, a present `published` is
sliced to its first 10 characters (`published.text[:10]`). -/
def parseEntry (e : AtomEntry) : ResearchItem :=
  { title := match e.title with | some t => clean_text t | none => ""
    summary := match e.summary with | some s => clean_text s | none => ""
    url := match e.id with | some l => l | none => ""
    source_type := ArxivSource.source_type
    authors := some e.authorNames
    published_date := match e.published with | some p => p.take 10 | none => none }

/-- `ArxivSource._parse_response`, given the list of entry elements the XML
parser found in the feed. -/
def parse_response (entries : List AtomEntry) : List ResearchItem :=
  entries.map parseEntry

/-! ## app/services/script_generator.py -/

/-- Python `x or d` for an optional string `x` (`None` and `""` are falsy). -/
def pyOrStr (x : Option String) (d : String) : String :=
  match x with
  | none => d
  | some s => if s = "" then d else s

/-- Python `x or d` for `x : int | None` (`None` and `0` are falsy). -/
def pyOrInt (x : Option Int) (d : Int) : Int :=
  match x with
  | none => d
  | some n => if n = 0 then d else n

/-- `", ".join(item.authors[:3]) if item.authors else "Unknown"`
(line 112): `None` and the empty list are both falsy. -/
def formatAuthors (item : ResearchItem) : String :=
  match item.authors with
  | some (a :: rest) => String.intercalate ", " ((a :: rest).take 3)
  | _ => "Unknown"

/-- One numbered result entry of `_execute_arxiv_search` (lines 113–119). -/
def formatItem (i : Nat) (item : ResearchItem) : String :=
  "[" ++ toString i ++ "] " ++ item.title ++ "\n"
    ++ "    Authors: " ++ formatAuthors item ++ "\n"
    ++ "    Date: " ++ pyOrStr item.published_date "Unknown" ++ "\n"
    ++ "    Summary: " ++ item.summary ++ "\n"
    ++ "    URL: " ++ item.url

/-- The formatted entries for `enumerate(items, 1)` (lines 110–119). -/
def formatItems (items : List ResearchItem) : List String :=
  (items.enumFrom 1).map (fun p => formatItem p.1 p.2)

/-- The result-formatting tail of `_execute_arxiv_search` (lines 106–121):
a function of the query and the returned items only — the requested
`max_results` value takes no part in it. -/
def formatSearchResults (query : String) (items : List ResearchItem) : String :=
  if items.isEmpty then
    "No results found for query: " ++ query
  else
    "Found " ++ toString items.length ++ " papers for " ++ squote ++ query ++ squote
      ++ ":\n\n" ++ String.intercalate "\n\n" (formatItems items)

/-- `_execute_arxiv_search` (lines 88–121), with the network search
`ArxivSource().search` supplied as the oracle `searchFn`.  It caps
`max_results` with `min(max_results, 10)` before calling the search, and
formats the returned items. -/
def execute_arxiv_search (searchFn : String → Int → List ResearchItem)
    (query : String) (max_results : Int) : String :=
  formatSearchResults query (searchFn query (min max_results 10))

/-- The input object of an `arxiv_search` tool call.  The tool schema
(`ARXIV_SEARCH_TOOL`) declares `query` required, so the engine always
supplies it; `max_results` is optional and read with `.get("max_results", 5)`. -/
structure ToolInput where
  query : String
  max_results : Option Int := none
  deriving DecidableEq

/-- `_process_tool_call` (lines 124–140): dispatch on the tool name; any
name other than `"arxiv_search"` yields the error string, no exception. -/
def process_tool_call (searchFn : String → Int → List ResearchItem)
    (tool_name : String) (tool_input : ToolInput) : String :=
  if tool_name = "arxiv_search" then
    execute_arxiv_search searchFn tool_input.query (tool_input.max_results.getD 5)
  else
    "Unknown tool: " ++ tool_name

/-- A content block of an engine response.  `toolUse` blocks have no `text`
attribute; `text` blocks do; `thinking` stands for any other block shape
without a `text` attribute. -/
inductive ContentBlock where
  | toolUse (id name : String) (input : ToolInput)
  | text (t : String)
  | thinking (t : String)
  deriving DecidableEq

/-- One response of the reasoning engine (`client.messages.create`). -/
structure EngineResponse where
  stop_reason : String
  content : List ContentBlock
  deriving DecidableEq

/-- The `tool_result` dict built at lines 200–206. -/
structure ToolResultBlock where
  tool_use_id : String
  content : String
  deriving DecidableEq

/-- The `content` field of a transcript message: the seed is a plain string,
an assistant turn carries the response blocks, a tool-results turn carries
the `tool_result` dicts. -/
inductive MessageContent where
  | ofText (s : String)
  | ofBlocks (blocks : List ContentBlock)
  | ofToolResults (results : List ToolResultBlock)
  deriving DecidableEq

/-- A transcript message (`{"role": ..., "content": ...}`). -/
structure Message where
  role : String
  content : MessageContent
  deriving DecidableEq

/-- The `for block in response.content: if block.type == "tool_use"` loop of
`generate_script` (lines 193–206): one `tool_result` per `tool_use` block,
in response order, carrying the id of the block as `tool_use_id`. -/
def processToolUses (searchFn : String → Int → List ResearchItem) :
    List ContentBlock → List ToolResultBlock
  | [] => []
  | ContentBlock.toolUse id name input :: rest =>
      { tool_use_id := id, content := process_tool_call searchFn name input }
        :: processToolUses searchFn rest
  | _ :: rest => processToolUses searchFn rest

/-- Projection of a block to its tool-use fields, used to state the
request/result correspondence. -/
def asToolUse : ContentBlock → Option (String × String × ToolInput)
  | ContentBlock.toolUse id name input => some (id, name, input)
  | _ => none

/-- The `for block in response.content: if hasattr(block, "text"): return
block.text` scan of the non-tool branch (lines 214–216): the first block
with a `text` attribute. -/
def firstTextBlock : List ContentBlock → Option String
  | [] => none
  | ContentBlock.text t :: _ => some t
  | _ :: rest => firstTextBlock rest

/-- The `while True` agentic loop of `generate_script` (lines 179–219).
The engine is an oracle list of responses, one consumed per iteration;
`none` means the oracle was exhausted while the loop still wanted another
response.  On `stop_reason == "tool_use"` the loop appends the assistant
turn and a single user turn holding the tool results, then queries again;
otherwise it returns the first text block, or the fallback string
`"Error: No script generated"` when none exists. -/
def agenticLoop (searchFn : String → Int → List ResearchItem) :
    List EngineResponse → List Message → Option String
  | [], _ => none
  | r :: rest, messages =>
    if r.stop_reason = "tool_use" then
      agenticLoop searchFn rest
        (messages ++ [⟨"assistant", MessageContent.ofBlocks r.content⟩,
                      ⟨"user", MessageContent.ofToolResults
                        (processToolUses searchFn r.content)⟩])
    else
      match firstTextBlock r.content with
      | some t => some t
      | none => some "Error: No script generated"

/-- The content of the initial user message (lines 172–174). -/
def seedText (topic : String) (duration word_count : Int) : String :=
  "Research and create a podcast script about " ++ dquote ++ topic ++ dquote ++ ". "
    ++ "Use the arxiv_search tool to find recent relevant papers, "
    ++ "then write an engaging " ++ toString duration ++ "-minute script (~"
    ++ toString word_count ++ " words)."

/-- The seed transcript of `generate_script` (lines 163–176):
`duration = duration_minutes or settings.podcast_duration_minutes`,
`word_count = duration * 150`, and a single user message. -/
def seedMessages (topic : String) (duration_minutes : Option Int) : List Message :=
  let duration := pyOrInt duration_minutes settings.podcast_duration_minutes
  let word_count := duration * 150
  [⟨"user", MessageContent.ofText (seedText topic duration word_count)⟩]

/-- `generate_script` (lines 143–219): seed the transcript, then run the
agentic loop against the engine oracle. -/
def generate_script (searchFn : String → Int → List ResearchItem)
    (engine : List EngineResponse) (topic : String)
    (duration_minutes : Option Int) : Option String :=
  agenticLoop searchFn engine (seedMessages topic duration_minutes)

/-! ## app/services/mcp_client.py -/

/-- A content block of an MCP `call_tool` result: `textContent` has a
`text` attribute, `imageContent` stands for any block without one. -/
inductive MCPContentBlock where
  | textContent (t : String)
  | imageContent (data : String)
  deriving DecidableEq

/-- The result object of `session.call_tool`. -/
structure CallToolResult where
  content : List MCPContentBlock
  deriving DecidableEq

/-- A tool as reported by the MCP server. -/
structure MCPTool where
  name : String
  description : String
  inputSchema : String
  deriving DecidableEq

/-- The dict shape the client builds from an `MCPTool` (lines 118–125 and
155–162). -/
structure ToolDict where
  name : String
  description : String
  input_schema : String
  deriving DecidableEq

/-- The behaviour of a connected `ClientSession`, as an oracle: the tools
it reports and the result of each `call_tool`. -/
structure ClientSession where
  toolsOnServer : List MCPTool
  callToolFn : String → List (String × String) → CallToolResult

/-- A resource registered on the AsyncExitStack of the client: the stdio
transport context and the session context entered in `connect`. -/
inductive StackEntry where
  | stdioTransport
  | clientSession
  deriving DecidableEq

/-- `ArxivMCPClient` state: `__init__` leaves `session = None` and an empty
exit stack. -/
structure ArxivMCPClient where
  storage_path : String
  session : Option ClientSession := none
  exit_stack : List StackEntry := []
  tools_cache : List ToolDict := []

/-- `ArxivMCPClient.__init__(storage_path)`. -/
def ArxivMCPClient.init (storage_path : String) : ArxivMCPClient :=
  { storage_path := storage_path }

/-- The dict built from one server tool (lines 119–123). -/
def toToolDict (t : MCPTool) : ToolDict :=
  ⟨t.name, t.description, t.inputSchema⟩

/-- `ArxivMCPClient.connect` (lines 82–128), with the handshaken session
supplied as an oracle: pushes the two contexts on the exit stack, stores
the session and caches the discovered tools. -/
def ArxivMCPClient.connect (c : ArxivMCPClient) (s : ClientSession) : ArxivMCPClient :=
  { c with
    exit_stack := c.exit_stack ++ [StackEntry.stdioTransport, StackEntry.clientSession],
    session := some s,
    tools_cache := s.toolsOnServer.map toToolDict }

/-- `ArxivMCPClient.cleanup` (lines 130–133): `exit_stack.aclose()` unwinds
every registered context (returned here, innermost first, as the list of
entries actually closed) and `session` is set to `None`. -/
def ArxivMCPClient.cleanup (c : ArxivMCPClient) : ArxivMCPClient × List StackEntry :=
  ({ c with exit_stack := [], session := none }, c.exit_stack.reverse)

/-- The `RuntimeError` message raised before `connect` (lines 152 and 178). -/
def notConnectedMsg : String := "Not connected to MCP server. Call connect() first."

/-- `ArxivMCPClient.list_tools` (lines 145–162): raises when `session` is
`None`, otherwise re-queries the server and converts each tool. -/
def ArxivMCPClient.list_tools (c : ArxivMCPClient) : Except String (List ToolDict) :=
  match c.session with
  | none => Except.error notConnectedMsg
  | some s => Except.ok (s.toolsOnServer.map toToolDict)

/-- The texts of the blocks with a `text` attribute, in order (lines 186–189). -/
def textsOf (blocks : List MCPContentBlock) : List String :=
  blocks.filterMap (fun b => match b with
    | MCPContentBlock.textContent t => some t
    | _ => none)

/-- Python `repr` of one MCP content block (a pydantic model). -/
def reprMCPBlock : MCPContentBlock → String
  | MCPContentBlock.textContent t =>
      "TextContent(type=" ++ squote ++ "text" ++ squote ++ ", text=" ++ squote ++ t ++ squote ++ ")"
  | MCPContentBlock.imageContent d =>
      "ImageContent(type=" ++ squote ++ "image" ++ squote ++ ", data=" ++ squote ++ d ++ squote ++ ")"

/-- Python `str(result.content)` for the list of content blocks (line 190):
the bracketed, comma-separated rendering of the elements. -/
def pyStrContent (blocks : List MCPContentBlock) : String :=
  "[" ++ String.intercalate ", " (blocks.map reprMCPBlock) ++ "]"

/-- The result-extraction tail of `call_tool` (lines 184–192): empty content
gives `"No result returned"`; otherwise the newline-join of the textual
blocks, or `str(result.content)` when there are none. -/
def extractToolResultText (result : CallToolResult) : String :=
  if result.content = [] then "No result returned"
  else if textsOf result.content = [] then pyStrContent result.content
  else String.intercalate "\n" (textsOf result.content)

/-- `ArxivMCPClient.call_tool` (lines 164–192): raises when `session` is
`None`, otherwise calls the tool and extracts the text. -/
def ArxivMCPClient.call_tool (c : ArxivMCPClient) (tool_name : String)
    (arguments : List (String × String)) : Except String String :=
  match c.session with
  | none => Except.error notConnectedMsg
  | some s => Except.ok (extractToolResultText (s.callToolFn tool_name arguments))

/-! ## Concrete oracles used by witnesses and counterexamples -/

/-- A search oracle that finds nothing. -/
def noSearch : String → Int → List ResearchItem := fun _ _ => []

/-- A concrete paper, used by the capping witness. -/
def oneItem : ResearchItem :=
  { title := "Attention Is All You Need"
    summary := "Transformers."
    url := "http://arxiv.org/abs/1706.03762"
    source_type := "arxiv"
    authors := some ["Ashish Vaswani"]
    published_date := some "2017-06-12" }

/-- A search oracle that returns a paper exactly when asked for 10 results,
so that the effect of the cap is observable. -/
def sampleSearch : String → Int → List ResearchItem :=
  fun _ n => if n = 10 then [oneItem] else []

/-- A session whose every tool call returns one non-textual block. -/
def imageOnlySession : ClientSession :=
  { toolsOnServer := []
    callToolFn := fun _ _ => ⟨[MCPContentBlock.imageContent "iVBOR"]⟩ }

/-- A connected client over `imageOnlySession`. -/
def imageOnlyClient : ArxivMCPClient :=
  { storage_path := "papers", session := some imageOnlySession }

/-- A session whose every tool call returns an empty content list. -/
def emptySession : ClientSession :=
  { toolsOnServer := [], callToolFn := fun _ _ => ⟨[]⟩ }

/-- A connected client over `emptySession`. -/
def emptyClient : ArxivMCPClient :=
  { storage_path := "papers", session := some emptySession }

/-- A session whose every tool call returns two textual blocks around a
non-textual one. -/
def mixedSession : ClientSession :=
  { toolsOnServer := []
    callToolFn := fun _ _ =>
      ⟨[MCPContentBlock.textContent "alpha", MCPContentBlock.imageContent "blob",
        MCPContentBlock.textContent "beta"]⟩ }

/-- A connected client over `mixedSession`. -/
def mixedClient : ArxivMCPClient :=
  { storage_path := "papers", session := some mixedSession }

/-! ## Helper lemmas -/

/-- The collection loop over the response blocks builds exactly one result
per `tool_use` block, in order, from its id, name and input. -/
theorem processToolUses_eq_filterMap (searchFn : String → Int → List ResearchItem) :
    ∀ blocks : List ContentBlock,
      processToolUses searchFn blocks
        = (blocks.filterMap asToolUse).map
            (fun t => ⟨t.1, process_tool_call searchFn t.2.1 t.2.2⟩)
  | [] => rfl
  | b :: rest => by
      cases b <;>
        simp [processToolUses, asToolUse, processToolUses_eq_filterMap searchFn rest]

/-- If some block is textual then the content list is nonempty. -/
theorem content_ne_nil_of_textsOf (blocks : List MCPContentBlock)
    (h : textsOf blocks ≠ []) : blocks ≠ [] := by
  intro hb
  subst hb
  exact h rfl

/-- The Python rendering of a content list is never the empty string. -/
theorem pyStrContent_ne_empty (blocks : List MCPContentBlock) :
    pyStrContent blocks ≠ "" := by
  intro h
  have hlen : (pyStrContent blocks).length = 0 := by rw [h]; rfl
  rw [pyStrContent, String.length_append, String.length_append] at hlen
  have h1 : ("[" : String).length = 1 := rfl
  have h2 : ("]" : String).length = 1 := rfl
  omega

/-! ## Claims -/

/-- Claim C1: for every engine response whose stop reason is `"tool_use"`,
the loop body of `generate_script` produces exactly one `tool_result` per
`tool_use` block, with `tool_use_id` equal to the id of the block, in the
order the blocks appear in the response, and appends the assistant turn
followed by a single tool-results user turn to the transcript before the
next engine query. -/
theorem C1_tool_use_turn (searchFn : String → Int → List ResearchItem)
    (r : EngineResponse) (rest : List EngineResponse) (messages : List Message)
    (h : r.stop_reason = "tool_use") :
    processToolUses searchFn r.content
        = (r.content.filterMap asToolUse).map
            (fun t => ⟨t.1, process_tool_call searchFn t.2.1 t.2.2⟩)
      ∧ (processToolUses searchFn r.content).map ToolResultBlock.tool_use_id
        = (r.content.filterMap asToolUse).map (fun t => t.1)
      ∧ agenticLoop searchFn (r :: rest) messages
        = agenticLoop searchFn rest
            (messages ++ [⟨"assistant", MessageContent.ofBlocks r.content⟩,
                          ⟨"user", MessageContent.ofToolResults
                            (processToolUses searchFn r.content)⟩]) := by
  refine ⟨processToolUses_eq_filterMap searchFn r.content, ?_, ?_⟩
  · rw [processToolUses_eq_filterMap searchFn r.content, List.map_map]
    rfl
  · simp [agenticLoop, h]

/-- A concrete tool-use response for the C1 witness. -/
def c1Resp : EngineResponse :=
  ⟨"tool_use",
   [ContentBlock.toolUse "toolu_01" "arxiv_search" ⟨"graph neural networks", some 5⟩]⟩

theorem C1_tool_use_turn_witness :
    agenticLoop noSearch [c1Resp] []
      = agenticLoop noSearch []
          ([] ++ [⟨"assistant", MessageContent.ofBlocks c1Resp.content⟩,
                  ⟨"user", MessageContent.ofToolResults
                    (processToolUses noSearch c1Resp.content)⟩]) :=
  (C1_tool_use_turn noSearch c1Resp [] [] rfl).2.2

/-- Claim C2 counterexample: on a response with neither tool requests nor a
block carrying a `text` attribute, `generate_script` does not fail — it
returns the ordinary fallback string. -/
theorem C2_counterexample :
    generate_script noSearch [⟨"end_turn", [ContentBlock.thinking "hmm"]⟩]
        "quantum computing" (some 5)
      = some "Error: No script generated" := by
  rfl

/-- Claim C2 (amended): if the engine response has a stop reason other than
`"tool_use"` and no block with a `text` attribute, the loop returns the
fallback string `"Error: No script generated"` as an ordinary value, rather
than failing with an EmptyResponse-kind error. -/
theorem C2_fallback_string (searchFn : String → Int → List ResearchItem)
    (r : EngineResponse) (rest : List EngineResponse) (messages : List Message)
    (h1 : r.stop_reason ≠ "tool_use") (h2 : firstTextBlock r.content = none) :
    agenticLoop searchFn (r :: rest) messages
      = some "Error: No script generated" := by
  simp [agenticLoop, h1, h2]

theorem C2_fallback_string_witness :
    agenticLoop noSearch [⟨"max_tokens", [ContentBlock.thinking "x"]⟩] []
      = some "Error: No script generated" :=
  C2_fallback_string noSearch ⟨"max_tokens", [ContentBlock.thinking "x"]⟩ [] []
    (by decide) rfl

/-- Claim C3 counterexample: on a result whose content has no textual
block, `call_tool` does not return the concatenation of the textual blocks
(which would be the empty string) — it returns the Python rendering of the
whole content list. -/
theorem C3_counterexample :
    imageOnlyClient.call_tool "search_papers" []
        = Except.ok (pyStrContent [MCPContentBlock.imageContent "iVBOR"])
      ∧ pyStrContent [MCPContentBlock.imageContent "iVBOR"]
        ≠ String.intercalate "\n"
            (textsOf [MCPContentBlock.imageContent "iVBOR"]) := by
  exact ⟨rfl, by decide⟩

/-- Claim C3 (amended): whenever the tool-call result contains at least one
textual block, `call_tool` returns the texts of all textual blocks
concatenated in order, separated by a single newline, with non-textual
blocks ignored and no failure raised. -/
theorem C3_textual_concat (c : ArxivMCPClient) (s : ClientSession)
    (tool_name : String) (arguments : List (String × String))
    (hs : c.session = some s)
    (ht : textsOf (s.callToolFn tool_name arguments).content ≠ []) :
    c.call_tool tool_name arguments
      = Except.ok (String.intercalate "\n"
          (textsOf (s.callToolFn tool_name arguments).content)) := by
  have hc : (s.callToolFn tool_name arguments).content ≠ [] :=
    content_ne_nil_of_textsOf _ ht
  simp [ArxivMCPClient.call_tool, hs, extractToolResultText, hc, ht]

theorem C3_textual_concat_witness :
    mixedClient.call_tool "search_papers" [("query", "LLMs")]
      = Except.ok (String.intercalate "\n"
          (textsOf (mixedSession.callToolFn "search_papers" [("query", "LLMs")]).content)) :=
  C3_textual_concat mixedClient mixedSession "search_papers" [("query", "LLMs")]
    rfl (by decide)

/-- Claim C4: a tool name other than `"arxiv_search"` yields a result whose
content is the unknown-tool error string, without raising, and the agentic
loop appends that result and proceeds to the next engine query. -/
theorem C4_unknown_tool (searchFn : String → Int → List ResearchItem)
    (tool_name : String) (input : ToolInput) (tid : String)
    (rest : List EngineResponse) (messages : List Message)
    (h : tool_name ≠ "arxiv_search") :
    process_tool_call searchFn tool_name input = "Unknown tool: " ++ tool_name
      ∧ agenticLoop searchFn
          (⟨"tool_use", [ContentBlock.toolUse tid tool_name input]⟩ :: rest) messages
        = agenticLoop searchFn rest
            (messages
              ++ [⟨"assistant",
                    MessageContent.ofBlocks [ContentBlock.toolUse tid tool_name input]⟩,
                  ⟨"user",
                    MessageContent.ofToolResults
                      [⟨tid, "Unknown tool: " ++ tool_name⟩]⟩]) := by
  constructor
  · simp [process_tool_call, h]
  · simp [agenticLoop, processToolUses, process_tool_call, h]

theorem C4_unknown_tool_witness :
    agenticLoop noSearch
        [⟨"tool_use",
          [ContentBlock.toolUse "toolu_02" "download_paper" ⟨"2401.12345", none⟩]⟩] []
      = agenticLoop noSearch []
          ([] ++ [⟨"assistant",
                    MessageContent.ofBlocks
                      [ContentBlock.toolUse "toolu_02" "download_paper" ⟨"2401.12345", none⟩]⟩,
                  ⟨"user",
                    MessageContent.ofToolResults
                      [⟨"toolu_02", "Unknown tool: " ++ "download_paper"⟩]⟩]) :=
  (C4_unknown_tool noSearch "download_paper" ⟨"2401.12345", none⟩ "toolu_02" [] []
    (by decide)).2

set_option maxRecDepth 8000 in
/-- Claim C5 counterexample: with `duration_minutes = 0` the seed does not
use a target word count of `0 * 150 = 0`; the Python `or` treats `0` as
falsy, so the default duration 5 is used and the seed mentions 750 words. -/
theorem C5_counterexample :
    seedMessages "graph neural networks" (some 0)
        = [⟨"user", MessageContent.ofText (seedText "graph neural networks" 5 750)⟩]
      ∧ seedMessages "graph neural networks" (some 0)
        ≠ [⟨"user",
            MessageContent.ofText (seedText "graph neural networks" 0 (0 * 150))⟩] := by
  exact ⟨by decide, by decide⟩

/-- Claim C5 (amended): `generate_script` seeds the conversation with a
single user turn built from the topic and a target word count equal to the
effective duration times 150, where the effective duration is the given
`duration_minutes` except that `none` and `0` (both falsy under Python
`or`) fall back to `settings.podcast_duration_minutes`; duration 5 yields
750 words. -/
theorem C5_seed_message (topic : String) (dm : Option Int)
    (searchFn : String → Int → List ResearchItem) (engine : List EngineResponse) :
    generate_script searchFn engine topic dm
        = agenticLoop searchFn engine (seedMessages topic dm)
      ∧ seedMessages topic dm
        = [⟨"user", MessageContent.ofText
              (seedText topic (pyOrInt dm settings.podcast_duration_minutes)
                (pyOrInt dm settings.podcast_duration_minutes * 150))⟩]
      ∧ (∀ d : Int, d ≠ 0 → pyOrInt (some d) settings.podcast_duration_minutes = d)
      ∧ pyOrInt none settings.podcast_duration_minutes
          = settings.podcast_duration_minutes
      ∧ pyOrInt (some 0) settings.podcast_duration_minutes
          = settings.podcast_duration_minutes
      ∧ pyOrInt (some 5) settings.podcast_duration_minutes * 150 = 750 := by
  refine ⟨rfl, rfl, ?_, rfl, by decide, by decide⟩
  intro d hd
  simp [pyOrInt, settings, hd]

theorem C5_seed_message_witness :
    seedMessages "machine learning" (some 3)
        = [⟨"user", MessageContent.ofText
              (seedText "machine learning"
                (pyOrInt (some 3) settings.podcast_duration_minutes)
                (pyOrInt (some 3) settings.podcast_duration_minutes * 150))⟩]
      ∧ pyOrInt (some 3) settings.podcast_duration_minutes = 3 := by
  have h := C5_seed_message "machine learning" (some 3) noSearch []
  exact ⟨h.2.1, h.2.2.1 3 (by decide)⟩

/-- Claim C6: with no session present (fresh client before `connect`, or any
client after `cleanup`), both `call_tool` and `list_tools` fail with the
not-connected `RuntimeError` for every tool name and argument mapping. -/
theorem C6_not_ready (c : ArxivMCPClient) (tool_name : String)
    (arguments : List (String × String)) (h : c.session = none) :
    c.call_tool tool_name arguments = Except.error notConnectedMsg
      ∧ c.list_tools = Except.error notConnectedMsg
      ∧ (∀ sp : String, (ArxivMCPClient.init sp).session = none)
      ∧ ∀ c2 : ArxivMCPClient, ((c2.cleanup).1).session = none := by
  refine ⟨?_, ?_, fun _ => rfl, fun _ => rfl⟩
  · simp [ArxivMCPClient.call_tool, h]
  · simp [ArxivMCPClient.list_tools, h]

theorem C6_not_ready_witness :
    (ArxivMCPClient.init "papers").call_tool "search_papers" [("query", "transformers")]
        = Except.error notConnectedMsg
      ∧ (ArxivMCPClient.init "papers").list_tools = Except.error notConnectedMsg := by
  have h := C6_not_ready (ArxivMCPClient.init "papers") "search_papers"
    [("query", "transformers")] rfl
  exact ⟨h.1, h.2.1⟩

/-- Claim C7: the non-MCP search execution passes `min(max_results, 10)` to
the underlying search, and the result string returned to the engine is a
function of the query and the returned items only — the requested value (and
hence the fact that it was capped) never appears in it: two runs whose
capped searches return the same items produce the identical string. -/
theorem C7_capped_search (searchFn : String → Int → List ResearchItem)
    (query : String) (max_results : Int) :
    execute_arxiv_search searchFn query max_results
        = formatSearchResults query (searchFn query (min max_results 10))
      ∧ execute_arxiv_search searchFn query max_results
        = execute_arxiv_search searchFn query (min max_results 10)
      ∧ ∀ (searchFn2 : String → Int → List ResearchItem) (requested2 : Int),
          searchFn query (min max_results 10) = searchFn2 query (min requested2 10) →
          execute_arxiv_search searchFn query max_results
            = execute_arxiv_search searchFn2 query requested2 := by
  refine ⟨rfl, ?_, ?_⟩
  · unfold execute_arxiv_search
    rw [min_assoc, min_self]
  · intro searchFn2 requested2 h
    unfold execute_arxiv_search
    rw [h]

theorem C7_capped_search_witness :
    execute_arxiv_search sampleSearch "transformers" 25
      = execute_arxiv_search sampleSearch "transformers" 12 :=
  (C7_capped_search sampleSearch "transformers" 25).2.2 sampleSearch 12 (by decide)

/-- Claim C8: `cleanup` is idempotent and never double-frees: a second
`cleanup` closes nothing (the stack is already empty) and leaves the state
unchanged; after any `cleanup` the session is cleared; and `cleanup` on a
client whose `connect` never ran closes nothing and succeeds. -/
theorem C8_cleanup_idempotent (c : ArxivMCPClient) :
    ((c.cleanup).1).cleanup = ((c.cleanup).1, [])
      ∧ ((c.cleanup).1).session = none
      ∧ ((c.cleanup).1).exit_stack = []
      ∧ ∀ sp : String,
          (ArxivMCPClient.init sp).cleanup
            = ({ storage_path := sp, session := none, exit_stack := [],
                 tools_cache := [] }, []) := by
  exact ⟨rfl, rfl, rfl, fun _ => rfl⟩

/-- Claim C9: empty result content yields the literal `"No result
returned"`; non-empty content with no textual block yields the Python
string rendering of the whole content list, which is neither the empty
string nor a failure. -/
theorem C9_empty_and_nontextual (c : ArxivMCPClient) (s : ClientSession)
    (tool_name : String) (arguments : List (String × String))
    (hs : c.session = some s) :
    ((s.callToolFn tool_name arguments).content = [] →
        c.call_tool tool_name arguments = Except.ok "No result returned")
      ∧ ((s.callToolFn tool_name arguments).content ≠ [] →
          textsOf (s.callToolFn tool_name arguments).content = [] →
          c.call_tool tool_name arguments
              = Except.ok (pyStrContent (s.callToolFn tool_name arguments).content)
            ∧ pyStrContent (s.callToolFn tool_name arguments).content ≠ "") := by
  constructor
  · intro h
    simp [ArxivMCPClient.call_tool, hs, extractToolResultText, h]
  · intro h1 h2
    refine ⟨?_, pyStrContent_ne_empty _⟩
    simp [ArxivMCPClient.call_tool, hs, extractToolResultText, h1, h2]

theorem C9_empty_and_nontextual_witness :
    emptyClient.call_tool "list_papers" [] = Except.ok "No result returned"
      ∧ imageOnlyClient.call_tool "download_paper" []
          = Except.ok (pyStrContent [MCPContentBlock.imageContent "iVBOR"])
      ∧ pyStrContent [MCPContentBlock.imageContent "iVBOR"] ≠ "" := by
  have h1 := (C9_empty_and_nontextual emptyClient emptySession "list_papers" [] rfl).1 rfl
  have h2 := (C9_empty_and_nontextual imageOnlyClient imageOnlySession
    "download_paper" [] rfl).2 (by decide) rfl
  exact ⟨h1, h2.1, h2.2⟩

/-- Claim C10: parsing is total over missing fields: a missing `title`,
`summary` or `id` element yields the empty string for that field, a missing
`published` element yields `none`, a present `published` yields exactly its
first 10 characters, and every entry of the feed yields exactly one item. -/
theorem C10_parse_totality (e : AtomEntry) :
    (e.title = none → (parseEntry e).title = "")
      ∧ (e.summary = none → (parseEntry e).summary = "")
      ∧ (e.id = none → (parseEntry e).url = "")
      ∧ (e.published = none → (parseEntry e).published_date = none)
      ∧ (∀ p : String, e.published = some p →
          (parseEntry e).published_date = some (p.take 10))
      ∧ ∀ entries : List AtomEntry, (parse_response entries).length = entries.length := by
  refine ⟨?_, ?_, ?_, ?_, ?_, ?_⟩
  · intro h; simp [parseEntry, h]
  · intro h; simp [parseEntry, h]
  · intro h; simp [parseEntry, h]
  · intro h; simp [parseEntry, h]
  · intro p h; simp [parseEntry, h]
  · intro entries; simp [parse_response]

theorem C10_parse_totality_witness :
    (parseEntry ⟨none, none, none, none, []⟩).title = ""
      ∧ (parseEntry ⟨none, none, none, none, []⟩).url = ""
      ∧ (parseEntry ⟨none, none, none, none, []⟩).published_date = none
      ∧ (parseEntry ⟨some "T", some "S", some "http://arxiv.org/abs/2401.1",
            some "2024-01-02T03:04:05Z", ["Ada Lovelace"]⟩).published_date
          = some ("2024-01-02T03:04:05Z".take 10) := by
  have h1 := C10_parse_totality ⟨none, none, none, none, []⟩
  have h2 := C10_parse_totality ⟨some "T", some "S", some "http://arxiv.org/abs/2401.1",
    some "2024-01-02T03:04:05Z", ["Ada Lovelace"]⟩
  exact ⟨h1.1 rfl, h1.2.2.1 rfl, h1.2.2.2.1 rfl,
         h2.2.2.2.2.1 "2024-01-02T03:04:05Z" rfl⟩
